import Mathlib

/-!
Shallow embedding of the pricing engine of `src/main.py` (dental-pricing).

Numbers that the Python code treats as floats are modelled as rationals (`ℚ`);
the float sentinel `float('inf')` is modelled as `⊤ : WithTop ℚ`.  A pandas
cell that may be non-numeric / NaN is modelled as `Option ℚ` (with `none` for
a value `pd.to_numeric(..., errors='coerce')` turns into NaN), and a column
that may be absent from the DataFrame is modelled by a `Bool` presence flag
on the table.
-/

namespace DentalPricing

/-- Column-name constant from `src/main.py` (`COL_NAME_EN`). -/
def COL_NAME_EN : String := "Service Name (Display)"

/-- Column-name constant from `src/main.py` (`COL_EXPECTED_CASES`). -/
def COL_EXPECTED_CASES : String := "Exp. Cases/Month"

/-- Column-name constant from `src/main.py` (`COL_VAR_COST`). -/
def COL_VAR_COST : String := "Var. Cost/Case (EGP)"

/-- Column-name constant from `src/main.py` (`COL_DURATION`). -/
def COL_DURATION : String := "Duration (hr)"

/-- One row of the services DataFrame as the user may have entered it:
the display name plus the three numeric cells, each of which may be
non-numeric (`none`, pandas NaN after coercion). -/
structure RawService where
  display_name : String
  expected_cases : Option ℚ
  variable_cost : Option ℚ
  duration_hours : Option ℚ
deriving DecidableEq

/-- The services DataFrame handed to `validate_service_data`: the four
required columns may each be present or absent, plus the rows. -/
structure RawTable where
  hasNameCol : Bool
  hasCasesCol : Bool
  hasVarCol : Bool
  hasDurCol : Bool
  rows : List RawService
deriving DecidableEq

/-- A service row after the coercion block at the top of
`calculate_detailed_pricing` (lines 487-494 of `src/main.py`):
`expected_cases` is an `int`, the other two are floats. -/
structure CalcRow where
  expected_cases : ℤ
  variable_cost : ℚ
  duration_hours : ℚ
deriving DecidableEq

/-- Truncation toward zero, the semantics of pandas `.astype(int)` on a
float column. -/
def ratTrunc (q : ℚ) : ℤ := q.num.tdiv q.den

/-- The per-row effect of the coercion block of `calculate_detailed_pricing`:
`expected_cases` gets `fillna(0).astype(int)`, `variable_cost` gets
`fillna(0.0)`, and `duration_hours` gets `fillna(0.1)` followed by
`apply(lambda x: max(x, 0.01))`. -/
def coerceService (r : RawService) : CalcRow where
  expected_cases :=
    match r.expected_cases with
    | none => 0
    | some q => ratTrunc q
  variable_cost := r.variable_cost.getD 0
  duration_hours := max (r.duration_hours.getD (1/10)) (1/100)

/-- `COL_SERVICE_HOURS` column: `expected_cases * duration_hours`
(line 507 of `src/main.py`). -/
def serviceHours (r : CalcRow) : ℚ := (r.expected_cases : ℚ) * r.duration_hours

/-- `total_service_hours` (line 508 of `src/main.py`). -/
def totalServiceHours (rows : List CalcRow) : ℚ := (rows.map serviceHours).sum

/-- One row of the result DataFrame produced by `calculate_detailed_pricing`,
carrying the coerced inputs plus every computed column.  `break_even_cases`
lives in `WithTop ℚ` because the code stores `float('inf')` there when the
contribution margin is not positive. -/
structure ResultRow where
  expected_cases : ℤ
  variable_cost : ℚ
  duration_hours : ℚ
  service_hours : ℚ
  allocated_fixed_cost : ℚ
  fixed_cost_per_case : ℚ
  total_cost_per_case : ℚ
  price_per_case : ℚ
  contribution_margin : ℚ
  contribution_margin_pct : ℚ
  break_even_cases : WithTop ℚ
  revenue_expected : ℚ
  profit_expected : ℚ
  revenue_per_hour : ℚ
  cm_per_hour : ℚ
deriving DecidableEq

/-- A default result row (used only as the default of `List.headD` in
concrete witnesses). -/
def defaultResult : ResultRow where
  expected_cases := 0
  variable_cost := 0
  duration_hours := 0
  service_hours := 0
  allocated_fixed_cost := 0
  fixed_cost_per_case := 0
  total_cost_per_case := 0
  price_per_case := 0
  contribution_margin := 0
  contribution_margin_pct := 0
  break_even_cases := ⊤
  revenue_expected := 0
  profit_expected := 0
  revenue_per_hour := 0
  cm_per_hour := 0

/-- The per-row core of `calculate_detailed_pricing` (lines 505-558 of
`src/main.py`), given the precomputed `total = total_service_hours` of the
whole collection.  Mirrors the code branch by branch:
* `total <= 0` ⟹ `allocated_fixed_cost = 0`, `fixed_cost_per_case = 0`;
* otherwise `allocated_fixed_cost = total_fixed_cost * (hours / total)` and
  `fixed_cost_per_case = np.where(cases > 0, alloc / cases, 0)`;
* `contribution_margin_pct` is the column `COL_CONTRIB_MARGIN_RATIO`,
  `np.where(price > 0, cm / price * 100.0, 0.0)`;
* `break_even_cases` is `np.where(cm > 0, alloc / cm, float('inf'))`;
* the per-hour columns are `np.where(duration > 0, _ / duration, 0.0)`. -/
def mkResult (r : CalcRow) (total_fixed_cost margin total : ℚ) : ResultRow :=
  let hours := serviceHours r
  let alloc := if total ≤ 0 then 0 else total_fixed_cost * (hours / total)
  let fcpc :=
    if total ≤ 0 then 0
    else if 0 < r.expected_cases then alloc / (r.expected_cases : ℚ) else 0
  let tcpc := r.variable_cost + fcpc
  let price := tcpc * (1 + margin)
  let cm := price - r.variable_cost
  { expected_cases := r.expected_cases
    variable_cost := r.variable_cost
    duration_hours := r.duration_hours
    service_hours := hours
    allocated_fixed_cost := alloc
    fixed_cost_per_case := fcpc
    total_cost_per_case := tcpc
    price_per_case := price
    contribution_margin := cm
    contribution_margin_pct := if 0 < price then cm / price * 100 else 0
    break_even_cases := if 0 < cm then ((alloc / cm : ℚ) : WithTop ℚ) else ⊤
    revenue_expected := price * (r.expected_cases : ℚ)
    profit_expected := cm * (r.expected_cases : ℚ) - alloc
    revenue_per_hour := if 0 < r.duration_hours then price / r.duration_hours else 0
    cm_per_hour := if 0 < r.duration_hours then cm / r.duration_hours else 0 }

/-- The calculation core of `calculate_detailed_pricing` applied to a whole
(already coerced) collection. -/
def coreCalc (rows : List CalcRow) (total_fixed_cost margin : ℚ) : List ResultRow :=
  rows.map (fun r => mkResult r total_fixed_cost margin (totalServiceHours rows))

/-- `calculate_detailed_pricing` (lines 477-560 of `src/main.py`): returns
`None` on an empty input, otherwise coerces every row and runs the core
calculation. -/
def calculate_detailed_pricing (rows : List RawService) (total_fixed_cost margin : ℚ) :
    Option (List ResultRow) :=
  if rows.isEmpty then none
  else some (coreCalc (rows.map coerceService) total_fixed_cost margin)

/-- One step of the loop body of `calculate_sensitivity` (lines 630-646 of
`src/main.py`) for an integer case count: the pair (price, break-even),
`⊤` standing for `float('inf')`. -/
def sensStep (variable_cost allocated_fixed_cost margin : ℚ) (cases : ℤ) :
    WithTop ℚ × WithTop ℚ :=
  if cases ≤ 0 then (⊤, ⊤)
  else
    let fixed_cost_per_case := allocated_fixed_cost / (cases : ℚ)
    let total_cost := variable_cost + fixed_cost_per_case
    let price := total_cost * (1 + margin)
    let cm := price - variable_cost
    (((price : ℚ) : WithTop ℚ),
      if 0 < cm then ((allocated_fixed_cost / cm : ℚ) : WithTop ℚ) else ⊤)

/-- `calculate_sensitivity` (lines 627-647 of `src/main.py`): the loop appends
one price and one break-even per element of `cases_range`, i.e. the two
output lists are the two component-wise maps of `sensStep`. -/
def calculate_sensitivity (variable_cost allocated_fixed_cost margin : ℚ)
    (cases_range : List ℤ) : List (WithTop ℚ) × List (WithTop ℚ) :=
  (cases_range.map (fun n => (sensStep variable_cost allocated_fixed_cost margin n).1),
   cases_range.map (fun n => (sensStep variable_cost allocated_fixed_cost margin n).2))

/-- Validation-error taxonomy of `validate_service_data` (lines 431-475 of
`src/main.py`); each constructor is one of the `errors.append(...)` sites. -/
inductive VErr where
  | emptyData : VErr
  | missingCols : List String → VErr
  | emptyName : VErr
  | duplicateName : List String → VErr
  | nonNumeric : String → VErr
  | negativeVal : String → VErr
  | zeroDuration : VErr
deriving DecidableEq

/-- The `missing_cols` list of `validate_service_data` (line 440): required
columns, in their required order, that are absent from the DataFrame. -/
def missingRequired (t : RawTable) : List String :=
  (if t.hasNameCol then [] else [COL_NAME_EN]) ++
  (if t.hasCasesCol then [] else [COL_EXPECTED_CASES]) ++
  (if t.hasVarCol then [] else [COL_VAR_COST]) ++
  (if t.hasDurCol then [] else [COL_DURATION])

/-- Names appearing more than once, as computed by
`df[df.duplicated(subset=[COL_NAME_EN], keep=False)][COL_NAME_EN].unique()`. -/
def dupNames (names : List String) : List String :=
  (names.filter (fun n => decide (2 ≤ names.count n))).dedup

/-- The effect of pandas `.str.strip()` used by the empty-name check:
drop leading and trailing whitespace (structural recursion over the
character list). -/
def pyStrip (s : String) : String :=
  ⟨((s.data.dropWhile Char.isWhitespace).reverse.dropWhile Char.isWhitespace).reverse⟩

/-- The empty-display-name check of `validate_service_data` (line 447). -/
def nameErrs (rows : List RawService) : List VErr :=
  if (rows.map (fun r => r.display_name)).any (fun n => pyStrip n == "") then
    [VErr.emptyName]
  else []

/-- The duplicate-display-name check of `validate_service_data`
(lines 452-455). -/
def dupErrs (rows : List RawService) : List VErr :=
  let d := dupNames (rows.map (fun r => r.display_name))
  if d.isEmpty then [] else [VErr.duplicateName d]

/-- One iteration of the numeric-column loop of `validate_service_data`
(lines 459-470) for `COL_EXPECTED_CASES` / `COL_VAR_COST`: a non-numeric
cell yields the non-numeric error and skips the negativity check; otherwise
a negative value yields the negative-value error. -/
def checkNonNegCol (col : String) (vals : List (Option ℚ)) : List VErr :=
  if vals.any (fun v => v.isNone) then [VErr.nonNumeric col]
  else if vals.any (fun v => decide (v.getD 0 < 0)) then [VErr.negativeVal col]
  else []

/-- The `COL_DURATION` iteration of the numeric-column loop of
`validate_service_data` (lines 459-473): non-numeric, else `<= 0`. -/
def checkDurationCol (vals : List (Option ℚ)) : List VErr :=
  if vals.any (fun v => v.isNone) then [VErr.nonNumeric COL_DURATION]
  else if vals.any (fun v => decide (v.getD 1 ≤ 0)) then [VErr.zeroDuration]
  else []

/-- The three numeric-column iterations, in the loop's order. -/
def fieldErrs (rows : List RawService) : List VErr :=
  checkNonNegCol COL_EXPECTED_CASES (rows.map (fun r => r.expected_cases)) ++
  checkNonNegCol COL_VAR_COST (rows.map (fun r => r.variable_cost)) ++
  checkDurationCol (rows.map (fun r => r.duration_hours))

/-- `validate_service_data` (lines 431-475 of `src/main.py`).  Returns early
with a single error on an empty table or on missing required columns;
otherwise accumulates the name, duplicate and numeric-column errors in one
pass and returns `(errors.isEmpty, errors)` (the code's `(not errors,
errors)`). -/
def validate_service_data (t : RawTable) : Bool × List VErr :=
  if t.rows.isEmpty then (false, [VErr.emptyData])
  else if !(missingRequired t).isEmpty then (false, [VErr.missingCols (missingRequired t)])
  else
    let errs := nameErrs t.rows ++ dupErrs t.rows ++ fieldErrs t.rows
    (errs.isEmpty, errs)

/-- Concrete collection for the C1 counterexample: one valid service with
zero expected cases. -/
def c1rows : List CalcRow := [⟨0, 0, 1⟩]

/-- Concrete collection used by several witnesses: one service with one
expected case, unit cost, unit duration. -/
def w1rows : List CalcRow := [⟨1, 1, 1⟩]

/-- First (and only) result row of `coreCalc w1rows 100 0`. -/
def w1res : ResultRow := (coreCalc w1rows 100 0).headD defaultResult

/-- First (and only) result row of `coreCalc w1rows 0 0`. -/
def w2res : ResultRow := (coreCalc w1rows 0 0).headD defaultResult

/-- First (and only) result row of `coreCalc w1rows 0 1`: price 2,
contribution margin 1, so the code's percentage column holds 50. -/
def c7res : ResultRow := (coreCalc w1rows 0 1).headD defaultResult

/-- The two-service scenario of spec §8 item 7 / claim C4, as raw input. -/
def scenarioRows : List RawService :=
  [⟨"Scaling & Polishing", some 80, some 100, some 0.75⟩,
   ⟨"Dental Implant (Surgery)", some 10, some 2500, some 2⟩]

/-- Two-service collection for the C9 witness: service hours 2 and 1. -/
def rows9 : List CalcRow := [⟨2, 0, 1⟩, ⟨1, 0, 1⟩]

/-- First result row of `coreCalc rows9 99 0`. -/
def r9a : ResultRow := (coreCalc rows9 99 0).headD defaultResult

/-- Second result row of `coreCalc rows9 99 0`. -/
def r9b : ResultRow := (coreCalc rows9 99 0).getD 1 defaultResult

/-- One-service raw collection with a non-numeric duration cell, for the
C10 witness. -/
def rows10 : List RawService := [⟨"A", some 1, some 1, none⟩]

/-- Table for the C8 counterexample: the duration column is missing AND the
display names are duplicated, so two independent violations are present. -/
def c8cexTable : RawTable :=
  ⟨true, true, true, false,
   [⟨"A", some 1, some 1, none⟩, ⟨"A", some 1, some 1, none⟩]⟩

/-- Table for the C8 witness: all columns present; carries an empty name,
a duplicated name, a non-numeric cases cell, a negative variable cost and a
zero duration all at once. -/
def c8witTable : RawTable :=
  ⟨true, true, true, true,
   [⟨"", some (-1), some 1, some 0⟩,
    ⟨"B", none, some (-2), some 1⟩,
    ⟨"B", some 1, some 1, some 1⟩]⟩

end DentalPricing

namespace DentalPricing

theorem mkResult_cases (r : CalcRow) (T m total : ℚ) :
    (mkResult r T m total).expected_cases = r.expected_cases := rfl

theorem mkResult_vc (r : CalcRow) (T m total : ℚ) :
    (mkResult r T m total).variable_cost = r.variable_cost := rfl

theorem mkResult_dur (r : CalcRow) (T m total : ℚ) :
    (mkResult r T m total).duration_hours = r.duration_hours := rfl

theorem mkResult_hours (r : CalcRow) (T m total : ℚ) :
    (mkResult r T m total).service_hours = serviceHours r := rfl

theorem mkResult_allocated (r : CalcRow) (T m total : ℚ) :
    (mkResult r T m total).allocated_fixed_cost =
      if total ≤ 0 then 0 else T * (serviceHours r / total) := rfl

theorem mkResult_fixed_per_case (r : CalcRow) (T m total : ℚ) :
    (mkResult r T m total).fixed_cost_per_case =
      if total ≤ 0 then 0
      else if 0 < r.expected_cases then
        (mkResult r T m total).allocated_fixed_cost / (r.expected_cases : ℚ)
      else 0 := rfl

theorem mkResult_total_cost (r : CalcRow) (T m total : ℚ) :
    (mkResult r T m total).total_cost_per_case =
      (mkResult r T m total).variable_cost + (mkResult r T m total).fixed_cost_per_case := rfl

theorem mkResult_price (r : CalcRow) (T m total : ℚ) :
    (mkResult r T m total).price_per_case =
      (mkResult r T m total).total_cost_per_case * (1 + m) := rfl

theorem mkResult_cm (r : CalcRow) (T m total : ℚ) :
    (mkResult r T m total).contribution_margin =
      (mkResult r T m total).price_per_case - (mkResult r T m total).variable_cost := rfl

theorem mkResult_pct (r : CalcRow) (T m total : ℚ) :
    (mkResult r T m total).contribution_margin_pct =
      if 0 < (mkResult r T m total).price_per_case then
        (mkResult r T m total).contribution_margin / (mkResult r T m total).price_per_case * 100
      else 0 := rfl

theorem mkResult_break_even (r : CalcRow) (T m total : ℚ) :
    (mkResult r T m total).break_even_cases =
      if 0 < (mkResult r T m total).contribution_margin then
        (((mkResult r T m total).allocated_fixed_cost /
          (mkResult r T m total).contribution_margin : ℚ) : WithTop ℚ)
      else ⊤ := rfl

theorem mkResult_rev_hour (r : CalcRow) (T m total : ℚ) :
    (mkResult r T m total).revenue_per_hour =
      if 0 < r.duration_hours then
        (mkResult r T m total).price_per_case / r.duration_hours
      else 0 := rfl

theorem mkResult_cm_hour (r : CalcRow) (T m total : ℚ) :
    (mkResult r T m total).cm_per_hour =
      if 0 < r.duration_hours then
        (mkResult r T m total).contribution_margin / r.duration_hours
      else 0 := rfl

/-- Claim C1, as stated, is false: for the valid one-service collection
`c1rows` (non-empty, duration 1 > 0, expected cases 0 ≥ 0) with
`totalFixedCost = 100`, the allocated fixed costs sum to 0, not 100:
the zero-total-hours branch zeroes the allocation instead of conserving it. -/
theorem claim_C1_cex :
    c1rows ≠ [] ∧
    (∀ r ∈ c1rows, 0 ≤ r.expected_cases ∧ 0 < r.duration_hours) ∧
    ((coreCalc c1rows 100 0).map (fun r => r.allocated_fixed_cost)).sum ≠ 100 := by
  refine ⟨by simp [c1rows], ?_, ?_⟩
  · intro r hr
    simp only [c1rows, List.mem_singleton] at hr
    subst hr
    exact ⟨le_refl 0, by norm_num⟩
  · norm_num [c1rows, coreCalc, mkResult, totalServiceHours, serviceHours]

/-- Claim C1 (amended): for every valid service collection whose total
service hours are positive (equivalently, not every `expected_cases` is 0),
the allocated fixed costs in the `calculate_detailed_pricing` result sum
exactly to `totalFixedCost`; when the total hours are zero the allocation
is identically zero instead. -/
theorem claim_C1_conservation (rows : List CalcRow) (T m : ℚ)
    (hvalid : ∀ r ∈ rows, 0 ≤ r.expected_cases ∧ 0 < r.duration_hours)
    (hpos : 0 < totalServiceHours rows) :
    ((coreCalc rows T m).map (fun r => r.allocated_fixed_cost)).sum = T := by
  have hne : totalServiceHours rows ≠ 0 := ne_of_gt hpos
  have hnot : ¬ totalServiceHours rows ≤ 0 := not_le.mpr hpos
  unfold coreCalc
  rw [List.map_map]
  have hfun :
      ((fun r : ResultRow => r.allocated_fixed_cost) ∘
        fun r => mkResult r T m (totalServiceHours rows)) =
      fun r => T / totalServiceHours rows * serviceHours r := by
    funext r
    simp only [Function.comp_apply]
    rw [mkResult_allocated, if_neg hnot]
    ring
  rw [hfun, List.sum_map_mul_left]
  exact div_mul_cancel₀ T hne

/-- Witness for the amended C1 at a concrete input: one service with one
case of one hour, fixed costs 100. -/
theorem claim_C1_witness :
    ((coreCalc w1rows 100 0).map (fun r => r.allocated_fixed_cost)).sum = 100 := by
  have h := claim_C1_conservation w1rows 100 0 ?_ ?_
  · exact h
  · intro r hr
    simp only [w1rows, List.mem_singleton] at hr
    subst hr
    exact ⟨by norm_num, by norm_num⟩
  · norm_num [w1rows, totalServiceHours, serviceHours]

/-- Claim C2: whenever the coerced collection has total service hours ≤ 0,
`calculate_detailed_pricing` still returns a result (the degenerate input is
not rejected) and every row gets `allocated_fixed_cost = 0` and
`fixed_cost_per_case = 0`; no division by the zero total is performed. -/
theorem claim_C2_zero_hours (rows : List RawService) (T m : ℚ)
    (hne : rows ≠ [])
    (h : totalServiceHours (rows.map coerceService) ≤ 0) :
    ∃ res, calculate_detailed_pricing rows T m = some res ∧
      ∀ r ∈ res, r.allocated_fixed_cost = 0 ∧ r.fixed_cost_per_case = 0 := by
  have hempty : rows.isEmpty = false := by
    cases rows with
    | nil => exact absurd rfl hne
    | cons a l => rfl
  refine ⟨coreCalc (rows.map coerceService) T m, ?_, ?_⟩
  · simp [calculate_detailed_pricing, hempty]
  · intro r hr
    obtain ⟨c, hc, rfl⟩ := List.mem_map.mp hr
    constructor
    · rw [mkResult_allocated, if_pos h]
    · rw [mkResult_fixed_per_case, if_pos h]

/-- Witness for C2: a one-service collection with zero expected cases is not
rejected and gets a zero allocation. -/
theorem claim_C2_witness :
    ∃ res, calculate_detailed_pricing [⟨"A", some 0, some 5, some 1⟩] 49500 0.35 = some res ∧
      ∀ r ∈ res, r.allocated_fixed_cost = 0 ∧ r.fixed_cost_per_case = 0 := by
  refine claim_C2_zero_hours _ 49500 0.35 (by simp) ?_
  norm_num [totalServiceHours, serviceHours, coerceService, ratTrunc]

/-- Claim C3: in every `calculate_detailed_pricing` result row,
`break_even_cases` is `allocated_fixed_cost / contribution_margin` when the
contribution margin is positive, and the infinity sentinel (`⊤`) when it is
zero or negative — never zero, never an error. -/
theorem claim_C3_break_even (rows : List CalcRow) (T m : ℚ) :
    ∀ r ∈ coreCalc rows T m,
      (0 < r.contribution_margin →
        r.break_even_cases =
          ((r.allocated_fixed_cost / r.contribution_margin : ℚ) : WithTop ℚ)) ∧
      (r.contribution_margin ≤ 0 → r.break_even_cases = ⊤) := by
  intro r hr
  obtain ⟨c, hc, rfl⟩ := List.mem_map.mp hr
  constructor
  · intro hcm
    rw [mkResult_break_even, if_pos hcm]
  · intro hcm
    rw [mkResult_break_even, if_neg (not_lt.mpr hcm)]

/-- Witness for C3 at a concrete result row. -/
theorem claim_C3_witness :
    (0 < w1res.contribution_margin →
      w1res.break_even_cases =
        ((w1res.allocated_fixed_cost / w1res.contribution_margin : ℚ) : WithTop ℚ)) ∧
    (w1res.contribution_margin ≤ 0 → w1res.break_even_cases = ⊤) :=
  claim_C3_break_even w1rows 100 0 w1res (by simp [w1res, w1rows, coreCalc])

/-- Claim C4: in every result row `total_cost_per_case` is
`variable_cost + fixed_cost_per_case` and `price_per_case` is
`total_cost_per_case * (1 + margin)`; and on the two-service scenario
(cases 80/10, variable costs 100/2500, durations 0.75/2, fixed costs 49500,
margin 0.35) the computed columns are exactly the claimed values. -/
theorem claim_C4_cost_price :
    (∀ (rows : List CalcRow) (T m : ℚ), ∀ r ∈ coreCalc rows T m,
      r.total_cost_per_case = r.variable_cost + r.fixed_cost_per_case ∧
      r.price_per_case = r.total_cost_per_case * (1 + m)) ∧
    ((calculate_detailed_pricing scenarioRows 49500 0.35).map
        (fun l => l.map (fun r => r.service_hours)) = some [60, 20] ∧
     (calculate_detailed_pricing scenarioRows 49500 0.35).map
        (fun l => l.map (fun r => r.allocated_fixed_cost)) = some [37125, 12375] ∧
     (calculate_detailed_pricing scenarioRows 49500 0.35).map
        (fun l => l.map (fun r => r.fixed_cost_per_case)) = some [464.0625, 1237.5] ∧
     (calculate_detailed_pricing scenarioRows 49500 0.35).map
        (fun l => l.map (fun r => r.total_cost_per_case)) = some [564.0625, 3737.5] ∧
     (calculate_detailed_pricing scenarioRows 49500 0.35).map
        (fun l => l.map (fun r => r.price_per_case)) = some [761.484375, 5045.625]) := by
  constructor
  · intro rows T m r hr
    obtain ⟨c, hc, rfl⟩ := List.mem_map.mp hr
    exact ⟨mkResult_total_cost c T m _, mkResult_price c T m _⟩
  · refine ⟨?_, ?_, ?_, ?_, ?_⟩ <;>
      norm_num [scenarioRows, calculate_detailed_pricing, coreCalc, coerceService,
        mkResult, totalServiceHours, serviceHours, ratTrunc]

/-- Witness for the universally quantified part of C4 at a concrete row. -/
theorem claim_C4_witness :
    w2res.total_cost_per_case = w2res.variable_cost + w2res.fixed_cost_per_case ∧
    w2res.price_per_case = w2res.total_cost_per_case * (1 + 0) :=
  claim_C4_cost_price.1 w1rows 0 0 w2res (by simp [w2res, w1rows, coreCalc])

end DentalPricing

namespace DentalPricing

theorem sensStep_price_pos (vc A m : ℚ) (n : ℤ) (hn : 0 < n) :
    (sensStep vc A m n).1 = (((vc + A / (n : ℚ)) * (1 + m) : ℚ) : WithTop ℚ) := by
  unfold sensStep
  rw [if_neg (not_le.mpr hn)]

theorem sensStep_be_pos (vc A m : ℚ) (n : ℤ) (hn : 0 < n) :
    (sensStep vc A m n).2 =
      (if 0 < (vc + A / (n : ℚ)) * (1 + m) - vc
       then ((A / ((vc + A / (n : ℚ)) * (1 + m) - vc) : ℚ) : WithTop ℚ)
       else ⊤) := by
  unfold sensStep
  rw [if_neg (not_le.mpr hn)]

theorem sensStep_nonpos (vc A m : ℚ) (n : ℤ) (hn : n ≤ 0) :
    sensStep vc A m n = (⊤, ⊤) := by
  unfold sensStep
  rw [if_pos hn]

/-- Claim C5: `calculate_sensitivity` yields two sequences of the same length
as the case range; at a case count `n ≤ 0` both entries are the infinity
sentinel, and at `n > 0` the price is `(variableCost + allocatedFixedCost/n)
* (1 + margin)` and the break-even is `allocatedFixedCost / (price -
variableCost)` when that margin is positive, else infinity. -/
theorem claim_C5_sens_spec (vc A m : ℚ) (range : List ℤ) :
    ((calculate_sensitivity vc A m range).1.length = range.length ∧
     (calculate_sensitivity vc A m range).2.length = range.length) ∧
    ∀ i, ∀ h : i < range.length,
      (range.get ⟨i, h⟩ ≤ 0 →
        (calculate_sensitivity vc A m range).1[i]? = some ⊤ ∧
        (calculate_sensitivity vc A m range).2[i]? = some ⊤) ∧
      (0 < range.get ⟨i, h⟩ →
        (calculate_sensitivity vc A m range).1[i]? =
          some ((((vc + A / ((range.get ⟨i, h⟩ : ℤ) : ℚ)) * (1 + m) : ℚ)) : WithTop ℚ) ∧
        (calculate_sensitivity vc A m range).2[i]? =
          some (if 0 < (vc + A / ((range.get ⟨i, h⟩ : ℤ) : ℚ)) * (1 + m) - vc
                then ((A / ((vc + A / ((range.get ⟨i, h⟩ : ℤ) : ℚ)) * (1 + m) - vc) : ℚ) :
                  WithTop ℚ)
                else ⊤)) := by
  refine ⟨⟨by simp [calculate_sensitivity], by simp [calculate_sensitivity]⟩, ?_⟩
  intro i h
  have hget : range[i]? = some (range.get ⟨i, h⟩) := by
    rw [List.getElem?_eq_getElem h]
    simp
  constructor
  · intro hle
    unfold calculate_sensitivity
    simp only [List.getElem?_map, hget, Option.map_some']
    rw [sensStep_nonpos vc A m _ hle]
    exact ⟨rfl, rfl⟩
  · intro hpos
    unfold calculate_sensitivity
    simp only [List.getElem?_map, hget, Option.map_some']
    rw [sensStep_price_pos vc A m _ hpos, sensStep_be_pos vc A m _ hpos]
    exact ⟨rfl, rfl⟩

/-- Witness for C5 at the spec's sensitivity scenario: the first price of
`variableCost=100`, `allocatedFixedCost=10000`, `margin=0.3`,
`caseRange=[10,20,50]` is 1430. -/
theorem claim_C5_witness :
    (calculate_sensitivity 100 10000 0.3 [10, 20, 50]).1[0]? =
      some ((1430 : ℚ) : WithTop ℚ) := by
  have h := ((claim_C5_sens_spec 100 10000 0.3 [10, 20, 50]).2 0 (by decide)).2 (by decide)
  rw [h.1]
  norm_num [List.get_cons_zero, WithTop.coe_eq_coe]

theorem sens_price_strict_anti (vc A m : ℚ) (hA : 0 < A) (hm : 0 ≤ m)
    (n1 n2 : ℤ) (h1 : 0 < n1) (h12 : n1 < n2) :
    (vc + A / (n2 : ℚ)) * (1 + m) < (vc + A / (n1 : ℚ)) * (1 + m) := by
  have hq1 : (0:ℚ) < (n1 : ℚ) := by exact_mod_cast h1
  have hq12 : ((n1 : ℚ)) < (n2 : ℚ) := by exact_mod_cast h12
  have hdiv : A / (n2 : ℚ) < A / (n1 : ℚ) := div_lt_div_of_pos_left hA hq1 hq12
  have hmul : (0:ℚ) < 1 + m := by linarith
  exact mul_lt_mul_of_pos_right (by linarith) hmul

theorem chain'_imp_of_mem {α : Type} {R S : α → α → Prop} :
    ∀ {l : List α}, (∀ a ∈ l, ∀ b ∈ l, R a b → S a b) → l.Chain' R → l.Chain' S := by
  intro l
  induction l with
  | nil => intro _ _; simp
  | cons a t ih =>
    intro himp hch
    cases t with
    | nil => simp
    | cons b u =>
      rw [List.chain'_cons] at hch ⊢
      refine ⟨himp a (by simp) b (by simp) hch.1, ih ?_ hch.2⟩
      intro x hx y hy hxy
      exact himp x (by simp [hx]) y (by simp [hy]) hxy

/-- Claim C6, as stated, is false: with `allocatedFixedCost = 0` (a value the
pricing engine really produces, e.g. for a zero-volume service) the price
sequence over the strictly increasing positive range `[1, 2]` is constant,
not strictly decreasing. -/
theorem claim_C6_cex :
    (0:ℤ) < 1 ∧ (1:ℤ) < 2 ∧ ([1, 2] : List ℤ).Chain' (· < ·) ∧
    ¬ (calculate_sensitivity 100 0 0.3 [1, 2]).1.Chain' (· > ·) := by
  refine ⟨by norm_num, by norm_num, by simp, ?_⟩
  intro hch
  unfold calculate_sensitivity at hch
  simp only [List.map] at hch
  rw [List.chain'_pair] at hch
  rw [sensStep_price_pos 100 0 0.3 1 (by norm_num),
    sensStep_price_pos 100 0 0.3 2 (by norm_num)] at hch
  rw [gt_iff_lt, WithTop.coe_lt_coe] at hch
  norm_num at hch

/-- Claim C6 (amended): for every `allocatedFixedCost > 0`, every
`variableCost` and every `margin ≥ 0`, the price sequence of
`calculate_sensitivity` is strictly decreasing along any strictly increasing
range of positive case counts; with a zero allocated fixed cost the sequence
is constant instead. -/
theorem claim_C6_monotonic (vc A m : ℚ) (range : List ℤ) (hA : 0 < A) (hm : 0 ≤ m)
    (hpos : ∀ n ∈ range, 0 < n) (hinc : range.Chain' (· < ·)) :
    (calculate_sensitivity vc A m range).1.Chain' (· > ·) := by
  unfold calculate_sensitivity
  rw [List.chain'_map]
  refine chain'_imp_of_mem ?_ hinc
  intro a ha b hb hab
  show (sensStep vc A m b).1 < (sensStep vc A m a).1
  rw [sensStep_price_pos vc A m a (hpos a ha), sensStep_price_pos vc A m b (hpos b hb)]
  exact WithTop.coe_lt_coe.mpr (sens_price_strict_anti vc A m hA hm a b (hpos a ha) hab)

/-- Witness for the amended C6: the spec's scenario range produces a strictly
decreasing price sequence. -/
theorem claim_C6_witness :
    (calculate_sensitivity 100 10000 0.3 [10, 20, 50]).1.Chain' (· > ·) :=
  claim_C6_monotonic 100 10000 0.3 [10, 20, 50] (by norm_num) (by norm_num)
    (by decide) (by norm_num [List.chain'_cons, List.chain'_singleton])

/-- Claim C7, as stated, is false: in the result row for a unit-cost service
priced with margin 1 the price is 2 ≠ 0 but the stored ratio column holds
50 — the code stores `(cm / price) * 100` (a percentage), not `cm / price`. -/
theorem claim_C7_cex :
    c7res.price_per_case ≠ 0 ∧
    c7res.contribution_margin_pct ≠ c7res.contribution_margin / c7res.price_per_case := by
  constructor <;>
    norm_num [c7res, w1rows, coreCalc, mkResult, totalServiceHours, serviceHours]

/-- Claim C7 (amended): in every result row the ratio column equals
`(contribution_margin / price_per_case) * 100` when `price_per_case > 0`,
and 0 otherwise (so also 0 for a negative price, not only for a zero one). -/
theorem claim_C7_pct (rows : List CalcRow) (T m : ℚ) :
    ∀ r ∈ coreCalc rows T m,
      r.contribution_margin_pct =
        if 0 < r.price_per_case then r.contribution_margin / r.price_per_case * 100
        else 0 := by
  intro r hr
  obtain ⟨c, hc, rfl⟩ := List.mem_map.mp hr
  exact mkResult_pct c T m _

/-- Witness for the amended C7 at a concrete result row. -/
theorem claim_C7_witness :
    c7res.contribution_margin_pct =
      if 0 < c7res.price_per_case then
        c7res.contribution_margin / c7res.price_per_case * 100
      else 0 :=
  claim_C7_pct w1rows 0 1 c7res (by simp [c7res, w1rows, coreCalc])

/-- Claim C9: within one valid collection, a service with exactly twice the
service hours of another receives exactly twice its allocated fixed cost. -/
theorem claim_C9_proportionality (rows : List CalcRow) (T m : ℚ)
    (hvalid : ∀ r ∈ rows, 0 ≤ r.expected_cases ∧ 0 < r.duration_hours) :
    ∀ ra ∈ coreCalc rows T m, ∀ rb ∈ coreCalc rows T m,
      ra.service_hours = 2 * rb.service_hours →
      ra.allocated_fixed_cost = 2 * rb.allocated_fixed_cost := by
  intro ra hra rb hrb hh
  obtain ⟨ca, hca, rfl⟩ := List.mem_map.mp hra
  obtain ⟨cb, hcb, rfl⟩ := List.mem_map.mp hrb
  rw [mkResult_hours, mkResult_hours] at hh
  rw [mkResult_allocated, mkResult_allocated]
  by_cases htot : totalServiceHours rows ≤ 0
  · rw [if_pos htot, if_pos htot]; ring
  · rw [if_neg htot, if_neg htot, hh]; ring

/-- Witness for C9: with service hours 2 and 1 and fixed costs 99, the
allocations are 66 and 33. -/
theorem claim_C9_witness :
    r9a.allocated_fixed_cost = 2 * r9b.allocated_fixed_cost := by
  refine claim_C9_proportionality rows9 99 0 ?_ r9a ?_ r9b ?_ ?_
  · intro r hr
    fin_cases hr <;> exact ⟨by norm_num, by norm_num⟩
  · simp [r9a, rows9, coreCalc]
  · simp [r9b, rows9, coreCalc]
  · norm_num [r9a, r9b, rows9, coreCalc, mkResult, totalServiceHours, serviceHours]

/-- Claim C10: `calculate_detailed_pricing` silently repairs durations before
computing — a non-numeric duration cell becomes 0.1, everything below 0.01
is raised to 0.01 — so every result row's duration is ≥ 0.01 and both
per-hour columns really are divisions by that (positive) duration, never the
division-by-zero fallback. -/
theorem claim_C10_duration_repair (rows : List RawService) (T m : ℚ) (i : ℕ)
    (h : i < rows.length) :
    ∃ r : ResultRow,
      (coreCalc (rows.map coerceService) T m)[i]? = some r ∧
      r.duration_hours = max ((rows.get ⟨i, h⟩).duration_hours.getD (1/10)) (1/100) ∧
      ((rows.get ⟨i, h⟩).duration_hours = none → r.duration_hours = 1/10) ∧
      (1/100 : ℚ) ≤ r.duration_hours ∧
      r.revenue_per_hour = r.price_per_case / r.duration_hours ∧
      r.cm_per_hour = r.contribution_margin / r.duration_hours := by
  have hget : rows[i]? = some (rows.get ⟨i, h⟩) := by
    rw [List.getElem?_eq_getElem h]
    simp
  have hd : (0:ℚ) < (coerceService (rows.get ⟨i, h⟩)).duration_hours :=
    lt_of_lt_of_le (by norm_num) (le_max_right _ _)
  refine ⟨mkResult (coerceService (rows.get ⟨i, h⟩)) T m
      (totalServiceHours (rows.map coerceService)), ?_, ?_, ?_, ?_, ?_, ?_⟩
  · unfold coreCalc
    simp only [List.getElem?_map, hget, Option.map_some', List.map_map]
    rfl
  · rw [mkResult_dur]; rfl
  · intro hnone
    rw [mkResult_dur]
    show max ((rows.get ⟨i, h⟩).duration_hours.getD (1/10)) (1/100) = 1/10
    rw [hnone]
    norm_num [Option.getD]
  · rw [mkResult_dur]
    exact le_max_right _ _
  · rw [mkResult_rev_hour, if_pos hd, mkResult_dur]
  · rw [mkResult_cm_hour, if_pos hd, mkResult_dur]

/-- Witness for C10: a service whose duration cell is non-numeric ends up
with duration 0.1 in the result. -/
theorem claim_C10_witness :
    ∃ r : ResultRow,
      (coreCalc (rows10.map coerceService) 0 0)[0]? = some r ∧
      r.duration_hours = max ((rows10.get ⟨0, by decide⟩).duration_hours.getD (1/10)) (1/100) ∧
      ((rows10.get ⟨0, by decide⟩).duration_hours = none → r.duration_hours = 1/10) ∧
      (1/100 : ℚ) ≤ r.duration_hours ∧
      r.revenue_per_hour = r.price_per_case / r.duration_hours ∧
      r.cm_per_hour = r.contribution_margin / r.duration_hours :=
  claim_C10_duration_repair rows10 0 0 0 (by decide)

end DentalPricing

namespace DentalPricing

theorem mem_ite_singleton {α : Type} (c : Prop) [Decidable c] (x a : α) :
    a ∈ (if c then [x] else ([] : List α)) ↔ c ∧ a = x := by
  split <;> simp_all

theorem mem_ite_nil {α : Type} (c : Prop) [Decidable c] (x a : α) :
    a ∈ (if c then ([] : List α) else [x]) ↔ ¬c ∧ a = x := by
  split <;> simp_all

theorem mem_nameErrs_iff (rows : List RawService) (e : VErr) :
    e ∈ nameErrs rows ↔
      (∃ r ∈ rows, pyStrip r.display_name = "") ∧ e = VErr.emptyName := by
  unfold nameErrs
  rw [mem_ite_singleton]
  simp [List.any_eq_true]

theorem mem_dupErrs_iff (rows : List RawService) (e : VErr) :
    e ∈ dupErrs rows ↔
      dupNames (rows.map (fun r => r.display_name)) ≠ [] ∧
      e = VErr.duplicateName (dupNames (rows.map (fun r => r.display_name))) := by
  unfold dupErrs
  rw [mem_ite_nil]
  simp [List.isEmpty_iff]

theorem mem_checkNonNegCol_iff (col : String) (vals : List (Option ℚ)) (e : VErr) :
    e ∈ checkNonNegCol col vals ↔
      ((∃ v ∈ vals, v = none) ∧ e = VErr.nonNumeric col) ∨
      ((∀ v ∈ vals, v ≠ none) ∧ (∃ v ∈ vals, v.getD 0 < 0) ∧
        e = VErr.negativeVal col) := by
  unfold checkNonNegCol
  split_ifs with hn hneg
  · simp_all [List.any_eq_true, Option.isNone_iff_eq_none]
  · simp_all [List.any_eq_true, Option.isNone_iff_eq_none]
    intro _ v hv hvn
    exact hn (hvn ▸ hv)
  · simp_all [List.any_eq_true, Option.isNone_iff_eq_none]

theorem mem_checkDurationCol_iff (vals : List (Option ℚ)) (e : VErr) :
    e ∈ checkDurationCol vals ↔
      ((∃ v ∈ vals, v = none) ∧ e = VErr.nonNumeric COL_DURATION) ∨
      ((∀ v ∈ vals, v ≠ none) ∧ (∃ v ∈ vals, v.getD 1 ≤ 0) ∧
        e = VErr.zeroDuration) := by
  unfold checkDurationCol
  split_ifs with hn hneg
  · simp_all [List.any_eq_true, Option.isNone_iff_eq_none]
  · simp_all [List.any_eq_true, Option.isNone_iff_eq_none]
    intro _ v hv hvn
    exact hn (hvn ▸ hv)
  · simp_all [List.any_eq_true, Option.isNone_iff_eq_none]

theorem dupNames_ne_nil_iff (names : List String) :
    dupNames names ≠ [] ↔ ∃ n ∈ names, 2 ≤ names.count n := by
  unfold dupNames
  rw [Ne, List.dedup_eq_nil]
  simp [List.filter_eq_nil_iff]

theorem validate_all_cols (t : RawTable) (hne : t.rows ≠ [])
    (h1 : t.hasNameCol = true) (h2 : t.hasCasesCol = true)
    (h3 : t.hasVarCol = true) (h4 : t.hasDurCol = true) :
    (validate_service_data t).2 =
      nameErrs t.rows ++ dupErrs t.rows ++ fieldErrs t.rows := by
  have hempty : t.rows.isEmpty = false := by
    cases hrows : t.rows with
    | nil => exact absurd hrows hne
    | cons a l => rfl
  have hmiss : missingRequired t = [] := by
    simp [missingRequired, h1, h2, h3, h4]
  simp [validate_service_data, hempty, hmiss]

theorem col_cases_ne_var : COL_EXPECTED_CASES ≠ COL_VAR_COST := by decide

theorem col_cases_ne_dur : COL_EXPECTED_CASES ≠ COL_DURATION := by decide

theorem col_var_ne_dur : COL_VAR_COST ≠ COL_DURATION := by decide

/-- Claim C8, as stated, is false: on a table whose duration column is
missing and whose display names are duplicated, two independent violations
are present but `validate_service_data` returns only the missing-column
error — it stops before the name checks instead of producing the complete
list. -/
theorem claim_C8_cex :
    (validate_service_data c8cexTable).2 = [VErr.missingCols [COL_DURATION]] ∧
    2 ≤ (c8cexTable.rows.map (fun r => r.display_name)).count "A" ∧
    ∀ ns, VErr.duplicateName ns ∉ (validate_service_data c8cexTable).2 := by
  refine ⟨by decide, by decide, ?_⟩
  intro ns hmem
  have h0 : (validate_service_data c8cexTable).2 = [VErr.missingCols [COL_DURATION]] := by
    decide
  rw [h0] at hmem
  simp at hmem

/-- Claim C8 (amended): once the collection is non-empty and all four
required columns are present, validation really is one complete,
non-fail-fast pass — the error list contains the empty-name error iff some
stripped name is empty, a duplicate-name error iff some name occurs twice,
and per numeric column the non-numeric error iff some cell fails to parse,
with the negativity (resp. non-positive-duration) error present iff the
column parses fully and has an offending value (a non-numeric cell masks
that same column's sign check); an empty collection or missing required
columns instead return early with only that single error. -/
theorem claim_C8_complete (t : RawTable) (hne : t.rows ≠ [])
    (h1 : t.hasNameCol = true) (h2 : t.hasCasesCol = true)
    (h3 : t.hasVarCol = true) (h4 : t.hasDurCol = true) :
    VErr.emptyData ∉ (validate_service_data t).2 ∧
    (∀ cs, VErr.missingCols cs ∉ (validate_service_data t).2) ∧
    (VErr.emptyName ∈ (validate_service_data t).2 ↔
      ∃ r ∈ t.rows, pyStrip r.display_name = "") ∧
    ((∃ ns, VErr.duplicateName ns ∈ (validate_service_data t).2) ↔
      ∃ n ∈ t.rows.map (fun r => r.display_name),
        2 ≤ (t.rows.map (fun r => r.display_name)).count n) ∧
    (VErr.nonNumeric COL_EXPECTED_CASES ∈ (validate_service_data t).2 ↔
      ∃ r ∈ t.rows, r.expected_cases = none) ∧
    (VErr.negativeVal COL_EXPECTED_CASES ∈ (validate_service_data t).2 ↔
      (∀ r ∈ t.rows, r.expected_cases ≠ none) ∧
      ∃ r ∈ t.rows, r.expected_cases.getD 0 < 0) ∧
    (VErr.nonNumeric COL_VAR_COST ∈ (validate_service_data t).2 ↔
      ∃ r ∈ t.rows, r.variable_cost = none) ∧
    (VErr.negativeVal COL_VAR_COST ∈ (validate_service_data t).2 ↔
      (∀ r ∈ t.rows, r.variable_cost ≠ none) ∧
      ∃ r ∈ t.rows, r.variable_cost.getD 0 < 0) ∧
    (VErr.nonNumeric COL_DURATION ∈ (validate_service_data t).2 ↔
      ∃ r ∈ t.rows, r.duration_hours = none) ∧
    (VErr.zeroDuration ∈ (validate_service_data t).2 ↔
      (∀ r ∈ t.rows, r.duration_hours ≠ none) ∧
      ∃ r ∈ t.rows, r.duration_hours.getD 1 ≤ 0) := by
  rw [validate_all_cols t hne h1 h2 h3 h4]
  unfold fieldErrs
  refine ⟨?_, ?_, ?_, ?_, ?_, ?_, ?_, ?_, ?_, ?_⟩ <;>
    simp [List.mem_append, mem_nameErrs_iff, mem_dupErrs_iff,
      mem_checkNonNegCol_iff, mem_checkDurationCol_iff, dupNames_ne_nil_iff,
      col_cases_ne_var, col_cases_ne_dur, col_var_ne_dur,
      Ne.symm col_cases_ne_var, Ne.symm col_cases_ne_dur, Ne.symm col_var_ne_dur]

/-- Witness for the amended C8: a table carrying five distinct violations at
once has all five reported in the one returned list. -/
theorem claim_C8_witness :
    VErr.emptyName ∈ (validate_service_data c8witTable).2 ∧
    (∃ ns, VErr.duplicateName ns ∈ (validate_service_data c8witTable).2) ∧
    VErr.nonNumeric COL_EXPECTED_CASES ∈ (validate_service_data c8witTable).2 ∧
    VErr.negativeVal COL_VAR_COST ∈ (validate_service_data c8witTable).2 ∧
    VErr.zeroDuration ∈ (validate_service_data c8witTable).2 := by
  obtain ⟨g1, g2, g3, g4, g5, g6, g7, g8, g9, g10⟩ :=
    claim_C8_complete c8witTable (by decide) rfl rfl rfl rfl
  exact ⟨g3.mpr (by decide), g4.mpr (by decide), g5.mpr (by decide),
    g8.mpr (by decide), g10.mpr (by decide)⟩

end DentalPricing
